import Mathlib

/-!
Verification development for the Roll-DPoS consensus core of the iotex-core
repository.  The Go sources are shallowly embedded: pure functions become Lean
functions, stateful handlers become explicit state-passing functions returning
the destination FSM state, the updated context and the list of emitted effects
(event productions, broadcasts, commits, log lines).  External collaborators
(chain, p2p, crypto, clock) are modelled as function-valued fields of the
context, mirroring the narrow interfaces the core consumes.
Machine integers (uint64 heights, durations) are modelled as Nat; byte strings
as lists of Nat.
-/

/-- Byte strings (Go `[]byte`); a byte is a `Nat`. -/
abbrev Bytes := List Nat

/-- FSM states of the consensus event FSM (source: `cfsm.go` consensusEvt states). -/
inductive FsmState where
  | sEpochStart
  | sDKGGeneration
  | sRoundStart
  | sInitPropose
  | sAcceptPropose
  | sAcceptProposalEndorse
  | sAcceptCommitEndorse
  | sInvalid
  deriving DecidableEq, Repr

export FsmState (sEpochStart sDKGGeneration sRoundStart sInitPropose sAcceptPropose sAcceptProposalEndorse sAcceptCommitEndorse sInvalid)

/-- Event types of the consensus event FSM (source: `cfsm.go` consensusEvt event types). -/
inductive EventType where
  | eRollDelegates
  | eGenerateDKG
  | eStartRound
  | eInitBlock
  | eProposeBlock
  | eProposeBlockTimeout
  | eEndorseProposal
  | eEndorseProposalTimeout
  | eEndorseCommit
  | eEndorseCommitTimeout
  | eFinishEpoch
  | eBackdoor
  deriving DecidableEq, Repr

/-- Endorsement topic constant `endorseProposal = false` (source: `cfsm.go`). -/
def endorseProposal : Bool := false

/-- Endorsement topic constant `endorseCommit = true` (source: `cfsm.go`). -/
def endorseCommit : Bool := true

/-- A block, as consumed by the consensus core through the chain collaborator
interface: height, producer address, the optional DKG header material, the
header timestamp and the dummy flag.  The block hash and signature validity are
functions of the block supplied by the external blockchain package and are kept
as oracles in the context. -/
structure Block where
  height : Nat
  producerAddress : String
  dkgID : Bytes
  dkgPubkey : Bytes
  dkgBlockSig : Bytes
  timestamp : Nat
  isDummy : Bool
  deriving DecidableEq, Repr

/-- An iotex address as used by the core: raw address string plus key pair
(external `iotxaddress.Address`). -/
structure Address where
  rawAddress : String
  publicKey : Bytes
  privateKey : Bytes
  deriving DecidableEq, Repr

/-- Modelled from the spec and the external `keypair` package (not under src/):
the zero private key, which `endorse.Sign` rejects as empty; modelled as the
empty byte list. -/
def zeroPrivateKey : Bytes := []

/-- The endorsement record (source: `cfsm.go` type `endorse`). -/
structure Endorse where
  topic : Bool
  height : Nat
  blkHash : Bytes
  decision : Bool
  endorser : String
  endorserPubkey : Bytes
  signature : Bytes
  deriving DecidableEq, Repr

/-- Modelled from the spec: `enc.MachineEndian.PutUint64` (package `pkg/enc`,
not under src/) writes a uint64 as 8 bytes in little-endian order. -/
def putUint64LE (n : Nat) : Bytes :=
  [n % 256, n / 256 % 256, n / 256 ^ 2 % 256, n / 256 ^ 3 % 256,
   n / 256 ^ 4 % 256, n / 256 ^ 5 % 256, n / 256 ^ 6 % 256, n / 256 ^ 7 % 256]

/-- Canonical byte stream of an endorsement (source: `endorse.ByteStream`):
8-byte height, one topic byte, the block hash bytes, one decision byte. -/
def Endorse.ByteStream (en : Endorse) : Bytes :=
  putUint64LE en.height ++ (if en.topic then [1] else [0]) ++ en.blkHash ++
    (if en.decision then [1] else [0])

/-- Signature hash of an endorsement (source: `endorse.Hash`); BLAKE2b-256 is
external crypto, passed as an oracle. -/
def Endorse.Hash (en : Endorse) (blake2b : Bytes → Bytes) : Bytes :=
  blake2b en.ByteStream

/-- Signing an endorsement (source: `endorse.Sign`): fails when the private key
is the zero key, otherwise records the endorser identity and the EC283
signature over the endorsement hash. -/
def Endorse.Sign (en : Endorse) (endorser : Address) (blake2b : Bytes → Bytes)
    (ec283Sign : Bytes → Bytes → Bytes) : Except String Endorse :=
  if endorser.privateKey = zeroPrivateKey then
    Except.error "the endorser private key is empty"
  else
    Except.ok { en with
      endorser := endorser.rawAddress
      endorserPubkey := endorser.publicKey
      signature := ec283Sign endorser.privateKey (en.Hash blake2b) }

/-- Signature verification of an endorsement (source: `endorse.VerifySignature`):
checks that the given public key hashes to the hash recovered from the endorser
address, then verifies the EC283 signature over the endorsement hash.  The hash
functions and EC283 are external crypto oracles. -/
def Endorse.VerifySignature (en : Endorse) (hashPubKey : Bytes → Bytes)
    (getPubkeyHash : String → Except String Bytes) (blake2b : Bytes → Bytes)
    (ec283Verify : Bytes → Bytes → Bytes → Bool) (pubkey : Bytes) : Bool :=
  match getPubkeyHash en.endorser with
  | Except.error _ => false
  | Except.ok endorserPubkeyHash =>
    if hashPubKey pubkey ≠ endorserPubkeyHash then false
    else ec283Verify pubkey (en.Hash blake2b) en.signature

/-- Wire topic enum (source: `iproto.EndorsePb_EndorsementTopic`). -/
inductive EndorseTopic where
  | PROPOSAL
  | COMMIT
  deriving DecidableEq, Repr

/-- Wire form of an endorsement (source: `iproto.EndorsePb`). -/
structure EndorsePb where
  height : Nat
  blockHash : Bytes
  topic : EndorseTopic
  endorser : String
  endorserPubKey : Bytes
  decision : Bool
  signature : Bytes
  deriving DecidableEq, Repr

/-- Serialization of an endorsement to its wire form (source: `endorse.toProtoMsg`). -/
def Endorse.toProtoMsg (en : Endorse) : EndorsePb :=
  { height := en.height
    blockHash := en.blkHash
    topic := if en.topic then EndorseTopic.COMMIT else EndorseTopic.PROPOSAL
    endorser := en.endorser
    endorserPubKey := en.endorserPubkey
    decision := en.decision
    signature := en.signature }

/-- Semantics of the Go builtin `copy(dst, src)` on byte slices: the length of
`dst` is unchanged and its first `min |dst| |src|` bytes are overwritten with
the corresponding bytes of `src`. -/
def goCopy (dst src : Bytes) : Bytes :=
  src.take dst.length ++ dst.drop src.length

/-- Deserialization of an endorsement from its wire form (source:
`endorse.fromProtoMsg`), operating on a receiver value `en` exactly as the Go
method mutates its receiver: the block hash and the signature are written with
the Go `copy` builtin, the other fields are assigned.  Parsing the endorser
public key is external (`keypair.BytesToPublicKey`) and passed as an oracle. -/
def Endorse.fromProtoMsg (en : Endorse) (pb : EndorsePb)
    (bytesToPublicKey : Bytes → Except String Bytes) : Except String Endorse :=
  let blkHash := goCopy en.blkHash pb.blockHash
  let topic :=
    match pb.topic with
    | EndorseTopic.PROPOSAL => endorseProposal
    | EndorseTopic.COMMIT => endorseCommit
  match bytesToPublicKey pb.endorserPubKey with
  | Except.error e => Except.error e
  | Except.ok pubKey =>
    Except.ok { en with
      blkHash := blkHash
      topic := topic
      endorserPubkey := pubKey
      height := pb.height
      endorser := pb.endorser
      decision := pb.decision
      signature := goCopy en.signature pb.signature }

/-- The zero value of the `endorse` struct (Go `var en endorse`): the 32-byte
hash array is all zeros, the slices are nil. -/
def zeroEndorse : Endorse :=
  { topic := false, height := 0, blkHash := List.replicate 32 0, decision := false
    endorser := "", endorserPubkey := [], signature := [] }

/-- Roll-DPoS consensus configuration (source: `config.go` type `RollDPoS`);
durations are in nanoseconds, modelled as `Nat`. -/
structure RollDPoS where
  delegateInterval : Nat
  proposerInterval : Nat
  unmatchedEventTTL : Nat
  unmatchedEventInterval : Nat
  roundStartTTL : Nat
  acceptProposeTTL : Nat
  acceptProposalEndorseTTL : Nat
  acceptCommitEndorseTTL : Nat
  delay : Nat
  numSubEpochs : Nat
  eventChanSize : Nat
  numDelegates : Nat
  enableDummyBlock : Bool
  timeBasedRotation : Bool
  deriving DecidableEq, Repr

/-- Consensus configuration section (source: `config.go` type `Consensus`). -/
structure Consensus where
  scheme : String
  rollDPoS : RollDPoS
  blockCreationInterval : Nat
  deriving DecidableEq, Repr

/-- Root configuration (source: `config.go` type `Config`); only the sections
read by the validation functions under proof are embedded. -/
structure Config where
  nodeType : String
  consensus : Consensus
  deriving DecidableEq, Repr

/-- Consensus scheme constant (source: `config.go`). -/
def RollDPoSScheme : String := "ROLLDPOS"

/-- Validation of the Roll-DPoS configuration (source: `config.go`
`ValidateRollDPoS`), translated clause by clause: each Go `if` returns, so the
three checks chain as nested conditionals. -/
def ValidateRollDPoS (cfg : Config) : Except String Unit :=
  if cfg.consensus.scheme = RollDPoSScheme ∧ cfg.consensus.rollDPoS.eventChanSize ≤ 0 then
    Except.error "roll-DPoS event chan size should be greater than 0"
  else if cfg.consensus.scheme = RollDPoSScheme ∧ cfg.consensus.rollDPoS.numDelegates ≤ 0 then
    Except.error "roll-DPoS event delegate number should be greater than 0"
  else if cfg.consensus.scheme = RollDPoSScheme ∧
      cfg.consensus.rollDPoS.enableDummyBlock = true ∧
      cfg.consensus.rollDPoS.timeBasedRotation = true then
    Except.error "roll-DPoS should enable dummy block when doing time based rotation"
  else
    Except.ok ()

/-- Consensus events as dequeued by the FSM worker (source: `cfsm.go`
`consensusEvt`, `proposeBlkEvt`, `endorseEvt`, `timeoutEvt`, `backdoorEvt`);
each carries its creation timestamp.  An `endorseE` event derives its event
type from the endorsement topic, as `newEndorseEvtWithEndorse` does. -/
inductive CEvt where
  | consensus (t : EventType) (ts : Nat)
  | proposeBlk (blk : Block) (ts : Nat)
  | endorseE (en : Endorse) (ts : Nat)
  | timeout (t : EventType) (ts : Nat)
  | backdoor (dst : FsmState) (ts : Nat)
  deriving DecidableEq, Repr

/-- Event type tag of an event (source: `consensusEvt.Type`). -/
def CEvt.evtType : CEvt → EventType
  | CEvt.consensus t _ => t
  | CEvt.proposeBlk _ _ => EventType.eProposeBlock
  | CEvt.endorseE en _ =>
    if en.topic = endorseProposal then EventType.eEndorseProposal else EventType.eEndorseCommit
  | CEvt.timeout t _ => t
  | CEvt.backdoor _ _ => EventType.eBackdoor

/-- Timestamp of an event (source: `consensusEvt.timestamp`). -/
def CEvt.ts : CEvt → Nat
  | CEvt.consensus _ ts => ts
  | CEvt.proposeBlk _ ts => ts
  | CEvt.endorseE _ ts => ts
  | CEvt.timeout _ ts => ts
  | CEvt.backdoor _ ts => ts

/-- Whether an event is a `timeoutEvt` (the Go type assertion in `cFSM.Start`). -/
def CEvt.isTimeout : CEvt → Bool
  | CEvt.timeout _ _ => true
  | _ => false

/-- Wire form of a block proposal (source: `iproto.ProposePb`). -/
structure ProposePb where
  proposer : String
  block : Block
  deriving DecidableEq, Repr

/-- Effects emitted by the FSM worker and the event handlers: event
productions (`cFSM.produce`), p2p broadcasts, chain commits, act-pool resets
and log lines. -/
inductive Act where
  | produce (evt : CEvt) (delay : Nat)
  | broadcastPropose (pb : ProposePb)
  | broadcastEndorse (pb : EndorsePb)
  | broadcastBlock (blk : Block)
  | commitBlock (blk : Block)
  | actPoolReset
  | logDebug (msg : String)
  | logInfo (msg : String)
  | logWarn (msg : String)
  | logError (msg : String)
  deriving DecidableEq, Repr

/-- Endorsement tallies: a map from block hash to a map from endorser address
to decision, modelled as association lists (Go `map[hash.Hash32B]map[string]bool`). -/
abbrev Tally := List (Bytes × List (String × Bool))

/-- Lookup of the inner decision map for a block hash; the missing case is the
empty map (Go returns the nil map). -/
def lookupTally (t : Tally) (h : Bytes) : List (String × Bool) :=
  match t.find? (fun p => decide (p.1 = h)) with
  | some p => p.2
  | none => []

/-- Lookup of a decision by endorser address in an inner map. -/
def lookupDecision (inner : List (String × Bool)) (addr : String) : Option Bool :=
  match inner.find? (fun p => decide (p.1 = addr)) with
  | some p => some p.2
  | none => none

/-- Writing a decision under an endorser address into an inner map; an existing
entry is overwritten (Go map assignment). -/
def updateInner (inner : List (String × Bool)) (addr : String) (d : Bool) : List (String × Bool) :=
  if inner.any (fun p => decide (p.1 = addr)) then
    inner.map (fun p => if p.1 = addr then (addr, d) else p)
  else
    inner ++ [(addr, d)]

/-- Writing a decision into a tally: the inner map for the block hash is looked
up (created empty when absent, as the handlers do) and the decision is written
under the endorser address. -/
def updateTally (t : Tally) (h : Bytes) (addr : String) (d : Bool) : Tally :=
  if t.any (fun p => decide (p.1 = h)) then
    t.map (fun p => if p.1 = h then (h, updateInner p.2 addr d) else p)
  else
    t ++ [(h, updateInner [] addr d)]

/-- Modelled from the spec: the quorum calculator (`rollDPoSCtx.calcQuorum`,
not under src/) maps an endorsement map to `(yes, no)` where `yes` holds when
the number of `true` decisions is at least the ceiling of `2n/3` plus one for a
committee of size `n`, and symmetrically for `no`. -/
def calcQuorum (numDelegates : Nat) (endorses : List (String × Bool)) : Bool × Bool :=
  let threshold := (2 * numDelegates + 2) / 3 + 1
  (decide ((endorses.filter (fun p => p.2)).length ≥ threshold),
   decide ((endorses.filter (fun p => !p.2)).length ≥ threshold))

/-- Per-round context (source: `roundCtx`). -/
structure RoundCtx where
  height : Nat
  timestamp : Nat
  block : Option Block
  proposalEndorses : Tally
  commitEndorses : Tally
  proposer : String

/-- Per-epoch context (source: `epochCtx`). -/
structure EpochCtx where
  num : Nat
  height : Nat
  delegates : List String
  numSubEpochs : Nat
  dkg : Bytes
  seed : Bytes

/-- The Roll-DPoS context (source: `rollDPoSCtx`): configuration, local
address, clock reading, epoch and round contexts, and the external
collaborators (chain, proposer selection, epoch arithmetic, crypto) as
function-valued oracles, mirroring the interfaces of spec section 6. -/
structure RollDPoSCtx where
  cfg : RollDPoS
  addr : Address
  clockNow : Nat
  epoch : EpochCtx
  round : RoundCtx
  chainID : Nat
  validateBlockC : Block → Bool → Except String Unit
  commitBlockC : Block → Except String Unit
  mintBlockC : Except String Block
  mintNewDummyBlockC : Block
  getBlockByHeightC : Nat → Except String Block
  convertToBlockPbC : Block → Option Block
  verifySignatureC : Block → Bool
  hashBlockC : Block → Bytes
  calcEpochNumAndHeightC : Except String (Nat × Nat)
  rollingDelegatesC : Nat → Except String (List String)
  generateDKGC : Except String Bytes
  rotatedProposerC : Except String (String × Nat)
  calcProposerC : Nat → List String → Except String String
  calcDurationSinceLastBlockC : Except String Nat
  isEpochFinishedC : Except String Bool
  blake2bC : Bytes → Bytes
  ec283SignC : Bytes → Bytes → Bytes
  blsVerifyC : Bytes → Bytes → Bytes → Except String Unit
  blsSignAggregateC : List Bytes → List Bytes → Except String Bytes
  blsVerifyAggregateC : List Bytes → List Bytes → Bytes → Bytes → Except String Unit

/-- Result of one transition handler (Go handlers return `(fsm.State, error)`;
context mutations through the pointer and produced effects are made explicit). -/
structure HandleRes where
  dst : FsmState
  ctx : RollDPoSCtx
  acts : List Act
  err : Option String

/-- Fresh consensus event stamped with the current clock (source: `cFSM.newCEvt`). -/
def RollDPoSCtx.newCEvt (ctx : RollDPoSCtx) (t : EventType) : CEvt :=
  CEvt.consensus t ctx.clockNow

/-- Fresh timeout event stamped with the current clock (source: `cFSM.newTimeoutEvt`). -/
def RollDPoSCtx.newTimeoutEvt (ctx : RollDPoSCtx) (t : EventType) : CEvt :=
  CEvt.timeout t ctx.clockNow

/-- Building and signing a fresh endorsement with the local address (source:
`newEndorseEvt`): fails when signing fails. -/
def RollDPoSCtx.newSignedEndorse (ctx : RollDPoSCtx) (topic : Bool) (blkHash : Bytes)
    (decision : Bool) (height : Nat) : Except String Endorse :=
  Endorse.Sign
    { topic := topic, height := height, blkHash := blkHash, decision := decision
      endorser := "", endorserPubkey := [], signature := [] }
    ctx.addr ctx.blake2bC ctx.ec283SignC

/-- Whether the local node is among the given delegates (source: `cFSM.isDelegate`). -/
def RollDPoSCtx.isDelegate (ctx : RollDPoSCtx) (delegates : List String) : Bool :=
  delegates.any (fun d => decide (ctx.addr.rawAddress = d))

/-- Handler for `eRollDelegates` in `sEpochStart` (source: `cFSM.handleRollDelegatesEvt`):
recomputes the epoch number and committee; when the local node is a delegate a
fresh epoch context is installed (resetting dkg and seed, as the Go composite
literal does) and DKG generation is triggered, otherwise the check is
rescheduled after `DelegateInterval`. -/
def handleRollDelegatesEvt (ctx : RollDPoSCtx) : HandleRes :=
  match ctx.calcEpochNumAndHeightC with
  | Except.error e =>
    { dst := sInvalid, ctx := ctx
      acts := [Act.produce (ctx.newCEvt EventType.eRollDelegates) ctx.cfg.delegateInterval]
      err := some e }
  | Except.ok (epochNum, epochHeight) =>
    match ctx.rollingDelegatesC epochNum with
    | Except.error e =>
      { dst := sInvalid, ctx := ctx
        acts := [Act.produce (ctx.newCEvt EventType.eRollDelegates) ctx.cfg.delegateInterval]
        err := some e }
    | Except.ok delegates =>
      if ctx.isDelegate delegates then
        let numSubEpochs := if ctx.cfg.numSubEpochs > 0 then ctx.cfg.numSubEpochs else 1
        let ctx2 := { ctx with
          epoch := { num := epochNum, height := epochHeight, delegates := delegates
                     numSubEpochs := numSubEpochs, dkg := [], seed := [] } }
        { dst := sDKGGeneration, ctx := ctx2
          acts := [Act.produce (ctx2.newCEvt EventType.eGenerateDKG) 0,
                   Act.logInfo "current node is the delegate"]
          err := none }
      else
        { dst := sEpochStart, ctx := ctx
          acts := [Act.produce (ctx.newCEvt EventType.eRollDelegates) ctx.cfg.delegateInterval,
                   Act.logInfo "current node is not the delegate"]
          err := none }

/-- Round-start pacing (source: `cFSM.produceStartRoundEvt`): the next
`eStartRound` is produced immediately when at least `ProposerInterval` has
elapsed since the last block, and after the residual delay otherwise. -/
def produceStartRoundEvt (ctx : RollDPoSCtx) : Except String (List Act) :=
  let durRes : Except String Nat :=
    match ctx.round.block with
    | some blk => Except.ok (ctx.clockNow - blk.timestamp)
    | none => ctx.calcDurationSinceLastBlockC
  match durRes with
  | Except.error e => Except.error e
  | Except.ok duration =>
    if duration ≥ ctx.cfg.proposerInterval then
      Except.ok [Act.produce (ctx.newCEvt EventType.eStartRound) 0]
    else
      Except.ok [Act.produce (ctx.newCEvt EventType.eStartRound) (ctx.cfg.proposerInterval - duration)]

/-- Handler for `eGenerateDKG` in `sDKGGeneration` (source: `cFSM.handleGenerateDKGEvt`). -/
def handleGenerateDKGEvt (ctx : RollDPoSCtx) : HandleRes :=
  match ctx.generateDKGC with
  | Except.error e => { dst := sInvalid, ctx := ctx, acts := [], err := some e }
  | Except.ok dkg =>
    let ctx2 := { ctx with epoch.dkg := dkg }
    match produceStartRoundEvt ctx2 with
    | Except.error e => { dst := sInvalid, ctx := ctx2, acts := [], err := some e }
    | Except.ok acts => { dst := sRoundStart, ctx := ctx2, acts := acts, err := none }

/-- Handler for `eStartRound` in `sRoundStart` (source: `cFSM.handleStartRoundEvt`):
creates a fresh round context, then either starts minting (local node is the
proposer) or waits for a proposal with a `ProposeBlockTimeout`. -/
def handleStartRoundEvt (ctx : RollDPoSCtx) : HandleRes :=
  match ctx.rotatedProposerC with
  | Except.error e =>
    { dst := sInvalid, ctx := ctx
      acts := [Act.logError "error when getting the proposer"], err := some e }
  | Except.ok (proposer, height) =>
    let ctx2 := { ctx with
      round := { height := height, timestamp := ctx.clockNow, block := none
                 proposalEndorses := [], commitEndorses := [], proposer := proposer } }
    if proposer = ctx2.addr.rawAddress then
      { dst := sInitPropose, ctx := ctx2
        acts := [Act.logInfo "current node is the proposer",
                 Act.produce (ctx2.newCEvt EventType.eInitBlock) 0]
        err := none }
    else
      { dst := sAcceptPropose, ctx := ctx2
        acts := [Act.logInfo "current node is not the proposer",
                 Act.produce (ctx2.newTimeoutEvt EventType.eProposeBlockTimeout) ctx2.cfg.acceptProposeTTL]
        err := none }

/-- Handler for `eInitBlock` in `sInitPropose` (source: `cFSM.handleInitBlockEvt`):
mints a block, self-produces the proposal event and broadcasts it. -/
def handleInitBlockEvt (ctx : RollDPoSCtx) : HandleRes :=
  match ctx.mintBlockC with
  | Except.error e => { dst := sInvalid, ctx := ctx, acts := [], err := some e }
  | Except.ok blk =>
    { dst := sAcceptPropose, ctx := ctx
      acts := [Act.produce (CEvt.proposeBlk blk ctx.clockNow) 0,
               Act.broadcastPropose { proposer := blk.producerAddress, block := blk }]
      err := none }

/-- DKG signature verification of a block against the epoch seed (source:
`verifyDKGSignature`). -/
def verifyDKGSignature (blsVerify : Bytes → Bytes → Bytes → Except String Unit)
    (blk : Block) (seedByte : Bytes) : Except String Unit :=
  blsVerify blk.dkgPubkey seedByte blk.dkgBlockSig

/-- Whether an `Except` carries a value. -/
def isOkE {α : Type} (e : Except String α) : Bool :=
  match e with
  | Except.ok _ => true
  | Except.error _ => false

/-- Validation of a proposed block (source: `cFSM.validateProposeBlock`), in
source order: round height, non-empty expected producer, block signature; a
self-proposed block is then accepted outright, otherwise chain validation with
actions included and, when both DKG public key and DKG block signature are
present, the BLS verification of the DKG signature against the epoch seed. -/
def validateProposeBlock (ctx : RollDPoSCtx) (blk : Block) (expectedProposer : String) : Bool :=
  if blk.height ≠ ctx.round.height then false
  else
    let producer := blk.producerAddress
    if producer = "" ∨ producer ≠ expectedProposer then false
    else if ¬ ctx.verifySignatureC blk then false
    else if producer = ctx.addr.rawAddress then true
    else if ¬ isOkE (ctx.validateBlockC blk true) then false
    else if blk.dkgPubkey.length > 0 ∧ blk.dkgBlockSig.length > 0 then
      isOkE (verifyDKGSignature ctx.blsVerifyC blk ctx.epoch.seed)
    else true

/-- Transition to `sAcceptProposalEndorse` with its timeout (source:
`cFSM.moveToAcceptProposalEndorse`). -/
def moveToAcceptProposalEndorse (ctx : RollDPoSCtx) : HandleRes :=
  { dst := sAcceptProposalEndorse, ctx := ctx
    acts := [Act.produce (ctx.newTimeoutEvt EventType.eEndorseProposalTimeout) ctx.cfg.acceptProposalEndorseTTL]
    err := none }

/-- Handler for `eProposeBlock` in `sAcceptPropose` (source:
`cFSM.handleProposeBlockEvt`): after the event-type guard the stored round
block is cleared, the expected proposer for the block height is computed, the
proposal is validated, and on success the block is stored, a proposal
endorsement is produced and broadcast, and the FSM moves on. -/
def handleProposeBlockEvt (ctx : RollDPoSCtx) (evt : CEvt) : HandleRes :=
  if evt.evtType ≠ EventType.eProposeBlock then
    { dst := sInvalid, ctx := ctx, acts := [], err := some "invalid event type" }
  else
    let ctx := { ctx with round.block := none }
    match evt with
    | CEvt.proposeBlk blk _ =>
      match ctx.calcProposerC blk.height ctx.epoch.delegates with
      | Except.error e => { dst := sInvalid, ctx := ctx, acts := [], err := some e }
      | Except.ok proposer =>
        if ¬ validateProposeBlock ctx blk proposer then
          { dst := sAcceptPropose, ctx := ctx, acts := [], err := none }
        else
          let ctx2 := { ctx with round.block := some blk }
          match ctx2.newSignedEndorse endorseProposal (ctx2.hashBlockC blk) true ctx2.round.height with
          | Except.error e => { dst := sInvalid, ctx := ctx2, acts := [], err := some e }
          | Except.ok en =>
            let r := moveToAcceptProposalEndorse ctx2
            { r with acts := [Act.produce (CEvt.endorseE en ctx2.clockNow) 0,
                              Act.broadcastEndorse en.toProtoMsg] ++ r.acts }
    | _ => { dst := sInvalid, ctx := ctx, acts := [], err := some "the event is not a proposeBlkEvt" }

/-- Handler for `eProposeBlockTimeout` in `sAcceptPropose` (source:
`cFSM.handleProposeBlockTimeout`). -/
def handleProposeBlockTimeout (ctx : RollDPoSCtx) (evt : CEvt) : HandleRes :=
  if evt.evtType ≠ EventType.eProposeBlockTimeout then
    { dst := sInvalid, ctx := ctx, acts := [], err := some "invalid event type" }
  else
    let r := moveToAcceptProposalEndorse ctx
    { r with acts := Act.logWarn "did not receive the proposed block before timeout" :: r.acts }

/-- Validation of an endorsement in the proposal phase (source:
`cFSM.validateEndorse`): topic and round height must match. -/
def validateEndorse (ctx : RollDPoSCtx) (en : Endorse) (expectedEndorseTopic : Bool) : Bool :=
  if en.topic ≠ expectedEndorseTopic then false
  else if en.height ≠ ctx.round.height then false
  else true

/-- Transition to `sAcceptCommitEndorse` with its timeout (source:
`cFSM.moveToAcceptCommitEndorse`). -/
def moveToAcceptCommitEndorse (ctx : RollDPoSCtx) : HandleRes :=
  { dst := sAcceptCommitEndorse, ctx := ctx
    acts := [Act.produce (ctx.newTimeoutEvt EventType.eEndorseCommitTimeout) ctx.cfg.acceptCommitEndorseTTL]
    err := none }

/-- Handler for `eEndorseProposal` in `sAcceptProposalEndorse` (source:
`cFSM.handleEndorseProposalEvt`): a valid endorsement is written into the
proposal tally; once the quorum calculator reports agreement a commit
endorsement is produced and broadcast and the FSM moves on. -/
def handleEndorseProposalEvt (ctx : RollDPoSCtx) (evt : CEvt) : HandleRes :=
  if evt.evtType ≠ EventType.eEndorseProposal then
    { dst := sInvalid, ctx := ctx, acts := [], err := some "invalid event type" }
  else
    match evt with
    | CEvt.endorseE en _ =>
      if ¬ validateEndorse ctx en endorseProposal then
        { dst := sAcceptProposalEndorse, ctx := ctx, acts := [], err := none }
      else
        let tally := updateTally ctx.round.proposalEndorses en.blkHash en.endorser en.decision
        let ctx2 := { ctx with round.proposalEndorses := tally }
        let q := calcQuorum ctx2.epoch.delegates.length (lookupTally tally en.blkHash)
        if !q.1 && !q.2 then
          { dst := sAcceptProposalEndorse, ctx := ctx2, acts := [], err := none }
        else
          match ctx2.newSignedEndorse endorseCommit en.blkHash (q.1 && !q.2) ctx2.round.height with
          | Except.error e => { dst := sInvalid, ctx := ctx2, acts := [], err := some e }
          | Except.ok cEn =>
            let r := moveToAcceptCommitEndorse ctx2
            { r with acts := [Act.produce (CEvt.endorseE cEn ctx2.clockNow) 0,
                              Act.broadcastEndorse cEn.toProtoMsg] ++ r.acts }
    | _ => { dst := sInvalid, ctx := ctx, acts := [], err := some "the event is not an endorseEvt" }

/-- Handler for `eEndorseProposalTimeout` in `sAcceptProposalEndorse` (source:
`cFSM.handleEndorseProposalTimeout`). -/
def handleEndorseProposalTimeout (ctx : RollDPoSCtx) (evt : CEvt) : HandleRes :=
  if evt.evtType ≠ EventType.eEndorseProposalTimeout then
    { dst := sInvalid, ctx := ctx, acts := [], err := some "invalid event type" }
  else
    let r := moveToAcceptCommitEndorse ctx
    { r with acts := Act.logWarn "did not collect enough proposal endorses before timeout" :: r.acts }

/-- Outcome processing of the commit phase (source: `cFSM.processEndorseCommit`):
on consensus the stored round block is pending; otherwise, when dummy blocks
are enabled, a freshly minted dummy block is pending.  A pending block is
committed (a commit failure is only logged), the act pool is reset and the
block is broadcast.  In every case an `eFinishEpoch` event is produced and the
FSM returns to `sRoundStart`. -/
def processEndorseCommit (ctx : RollDPoSCtx) (consensus : Bool) : HandleRes :=
  let pending : Option Block × List Act :=
    if consensus then
      (ctx.round.block, [Act.logInfo "consensus reached"])
    else
      if ctx.cfg.enableDummyBlock then
        (some ctx.mintNewDummyBlockC,
         [Act.logWarn "consensus did not reach", Act.logWarn "dummy block is generated"])
      else
        (none, [Act.logWarn "consensus did not reach"])
  let commitActs : List Act :=
    match pending.1 with
    | none => []
    | some blk =>
      (Act.commitBlock blk ::
        (match ctx.commitBlockC blk with
         | Except.error _ => [Act.logError "error when committing a block"]
         | Except.ok _ => [])) ++
      (Act.actPoolReset ::
        (match ctx.convertToBlockPbC blk with
         | some pb => [Act.broadcastBlock pb]
         | none => [Act.logError "error when converting a block into a proto msg"]))
  { dst := sRoundStart, ctx := ctx
    acts := pending.2 ++ commitActs ++ [Act.produce (ctx.newCEvt EventType.eFinishEpoch) 0]
    err := none }

/-- Handler for `eEndorseCommit` in `sAcceptCommitEndorse` (source:
`cFSM.handleEndorseCommitEvt`): only the topic is checked; the endorsement is
written into the commit tally and the quorum is recomputed, and once either
quorum holds the commit outcome is processed. -/
def handleEndorseCommitEvt (ctx : RollDPoSCtx) (evt : CEvt) : HandleRes :=
  if evt.evtType ≠ EventType.eEndorseCommit then
    { dst := sInvalid, ctx := ctx, acts := [], err := some "invalid event type" }
  else
    match evt with
    | CEvt.endorseE en _ =>
      if en.topic ≠ endorseCommit then
        { dst := sAcceptCommitEndorse, ctx := ctx, acts := [], err := none }
      else
        let tally := updateTally ctx.round.commitEndorses en.blkHash en.endorser en.decision
        let ctx2 := { ctx with round.commitEndorses := tally }
        let q := calcQuorum ctx2.epoch.delegates.length (lookupTally tally en.blkHash)
        if !q.1 && !q.2 then
          { dst := sAcceptCommitEndorse, ctx := ctx2, acts := [], err := none }
        else
          processEndorseCommit ctx2 (q.1 && !q.2)
    | _ => { dst := sInvalid, ctx := ctx, acts := [], err := some "the event is not an endorseEvt" }

/-- Handler for `eEndorseCommitTimeout` in `sAcceptCommitEndorse` (source:
`cFSM.handleEndorseCommitTimeout`): processes the commit outcome with no
consensus. -/
def handleEndorseCommitTimeout (ctx : RollDPoSCtx) (evt : CEvt) : HandleRes :=
  if evt.evtType ≠ EventType.eEndorseCommitTimeout then
    { dst := sInvalid, ctx := ctx, acts := [], err := some "invalid event type" }
  else
    let r := processEndorseCommit ctx false
    { r with acts := Act.logWarn "did not collect enough commit endorse before timeout" :: r.acts }

/-- Handler for `eFinishEpoch` in `sRoundStart` (source: `cFSM.handleFinishEpochEvt`). -/
def handleFinishEpochEvt (ctx : RollDPoSCtx) : HandleRes :=
  match ctx.isEpochFinishedC with
  | Except.error e => { dst := sInvalid, ctx := ctx, acts := [], err := some e }
  | Except.ok finished =>
    if finished then
      { dst := sEpochStart, ctx := ctx
        acts := [Act.produce (ctx.newCEvt EventType.eRollDelegates) 0], err := none }
    else
      match produceStartRoundEvt ctx with
      | Except.error e => { dst := sInvalid, ctx := ctx, acts := [], err := some e }
      | Except.ok acts => { dst := sRoundStart, ctx := ctx, acts := acts, err := none }

/-- Handler for `eBackdoor` in any state (source: `cFSM.handleBackdoorEvt`). -/
def handleBackdoorEvt (ctx : RollDPoSCtx) (evt : CEvt) : HandleRes :=
  match evt with
  | CEvt.backdoor dst _ => { dst := dst, ctx := ctx, acts := [], err := none }
  | _ => { dst := sInvalid, ctx := ctx, acts := [], err := some "the event is not a backdoorEvt" }

/-- The consensus FSM: current state plus owned context (source: `cFSM`). -/
structure CFSM where
  state : FsmState
  ctx : RollDPoSCtx

/-- The transition table built in `newConsensusFSM`: one edge per declared
`AddTransition`, plus a backdoor edge for every consensus state. -/
def hasTransition (s : FsmState) (t : EventType) : Bool :=
  match s, t with
  | FsmState.sEpochStart, EventType.eRollDelegates => true
  | FsmState.sDKGGeneration, EventType.eGenerateDKG => true
  | FsmState.sRoundStart, EventType.eStartRound => true
  | FsmState.sRoundStart, EventType.eFinishEpoch => true
  | FsmState.sInitPropose, EventType.eInitBlock => true
  | FsmState.sAcceptPropose, EventType.eProposeBlock => true
  | FsmState.sAcceptPropose, EventType.eProposeBlockTimeout => true
  | FsmState.sAcceptProposalEndorse, EventType.eEndorseProposal => true
  | FsmState.sAcceptProposalEndorse, EventType.eEndorseProposalTimeout => true
  | FsmState.sAcceptCommitEndorse, EventType.eEndorseCommit => true
  | FsmState.sAcceptCommitEndorse, EventType.eEndorseCommitTimeout => true
  | s, EventType.eBackdoor => decide (s ≠ FsmState.sInvalid)
  | _, _ => false

/-- Dispatch of an event to its handler along the transition table edges. -/
def handleEvt (ctx : RollDPoSCtx) (s : FsmState) (evt : CEvt) : HandleRes :=
  match s, evt.evtType with
  | FsmState.sEpochStart, EventType.eRollDelegates => handleRollDelegatesEvt ctx
  | FsmState.sDKGGeneration, EventType.eGenerateDKG => handleGenerateDKGEvt ctx
  | FsmState.sRoundStart, EventType.eStartRound => handleStartRoundEvt ctx
  | FsmState.sRoundStart, EventType.eFinishEpoch => handleFinishEpochEvt ctx
  | FsmState.sInitPropose, EventType.eInitBlock => handleInitBlockEvt ctx
  | FsmState.sAcceptPropose, EventType.eProposeBlock => handleProposeBlockEvt ctx evt
  | FsmState.sAcceptPropose, EventType.eProposeBlockTimeout => handleProposeBlockTimeout ctx evt
  | FsmState.sAcceptProposalEndorse, EventType.eEndorseProposal => handleEndorseProposalEvt ctx evt
  | FsmState.sAcceptProposalEndorse, EventType.eEndorseProposalTimeout => handleEndorseProposalTimeout ctx evt
  | FsmState.sAcceptCommitEndorse, EventType.eEndorseCommit => handleEndorseCommitEvt ctx evt
  | FsmState.sAcceptCommitEndorse, EventType.eEndorseCommitTimeout => handleEndorseCommitTimeout ctx evt
  | _, EventType.eBackdoor => handleBackdoorEvt ctx evt
  | _, _ => { dst := sInvalid, ctx := ctx, acts := [], err := some "transition not found" }

/-- Errors of the wrapped general-purpose FSM `Handle` call. -/
inductive HandleErr where
  | transitionNotFound
  | handlerErr (msg : String)
  deriving DecidableEq, Repr

/-- Modelled from the spec: the external go-fsm library dispatches an event
along the transition table; when no edge exists for the current state and
event type it reports `ErrTransitionNotFound`, when the handler errors the
sentinel state is discarded and the FSM remains in its prior state, otherwise
the state returned by the handler is installed.  Context mutations made by the
handler persist in every case (they happen through the shared pointer). -/
def fsmHandle (m : CFSM) (evt : CEvt) : CFSM × List Act × Option HandleErr :=
  if ¬ hasTransition m.state evt.evtType then
    (m, [], some HandleErr.transitionNotFound)
  else
    let r := handleEvt m.ctx m.state evt
    match r.err with
    | some e => ({ state := m.state, ctx := r.ctx }, r.acts, some (HandleErr.handlerErr e))
    | none => ({ state := r.dst, ctx := r.ctx }, r.acts, none)

/-- One iteration of the FSM worker on a dequeued event (source: the event arm
of the select loop in `cFSM.Start`): a timeout event older than the current
round is dropped as stale; an event with no matching transition is re-produced
after `UnmatchedEventInterval` when its age is within `UnmatchedEventTTL` and
silently dropped otherwise; handler errors are logged; on success the
transition is logged. -/
def workerStep (m : CFSM) (evt : CEvt) : CFSM × List Act :=
  if evt.isTimeout ∧ evt.ts < m.ctx.round.timestamp then
    (m, [Act.logDebug "timeoutEvt is stale"])
  else
    let r := fsmHandle m evt
    match r.2.2 with
    | some HandleErr.transitionNotFound =>
      if m.ctx.clockNow - evt.ts ≤ m.ctx.cfg.unmatchedEventTTL then
        (r.1, r.2.1 ++ [Act.produce evt m.ctx.cfg.unmatchedEventInterval,
                        Act.logDebug "consensusEvt state transition could find the match"])
      else
        (r.1, r.2.1)
    | some (HandleErr.handlerErr _) =>
      (r.1, r.2.1 ++ [Act.logError "consensusEvt state transition fails"])
    | none =>
      (r.1, r.2.1 ++ [Act.logDebug "consensusEvt state transition happens"])

/-- One step of the seed-collection loop in `cFSM.updateSeed` (the Go `for`
loop from `startHeight` while `i <= endHeight && len(selectedID) < Degree+1`),
as structural recursion on the remaining iteration budget; each selected block
contributes its `(DKGID, DKGBlockSig, DKGPubkey)` triple. -/
def seedLoop (getBlk : Nat → Except String Block) (endHeight need : Nat) :
    Nat → Nat → List (Bytes × Bytes × Bytes) → List (Bytes × Bytes × Bytes)
  | 0, _, acc => acc
  | fuel + 1, i, acc =>
    if i ≤ endHeight ∧ acc.length < need then
      let acc2 :=
        match getBlk i with
        | Except.error _ => acc
        | Except.ok blk =>
          if blk.dkgID.length > 0 ∧ blk.dkgPubkey.length > 0 ∧ blk.dkgBlockSig.length > 0 then
            acc ++ [(blk.dkgID, blk.dkgBlockSig, blk.dkgPubkey)]
          else acc
      seedLoop getBlk endHeight need fuel (i + 1) acc2
    else acc

/-- Seed derivation (source: `cFSM.updateSeed`): empty seed for the first
epochs, otherwise the BLS aggregate over the first `degree + 1` DKG-bearing
blocks of the previous epoch window, cross-checked against the previous seed.
`degree` stands for the external constant `crypto.Degree`. -/
def updateSeed (ctx : RollDPoSCtx) (degree : Nat) : Except String Bytes :=
  let numDlgs := ctx.cfg.numDelegates
  match ctx.calcEpochNumAndHeightC with
  | Except.error _ => Except.error "Failed to do decode seed"
  | Except.ok (epochNum, epochHeight) =>
    if epochNum ≤ 1 then Except.ok []
    else
      let endHeight := epochHeight - 1
      let startHeight := numDlgs * ctx.cfg.numSubEpochs * (epochNum - 2) + 1
      let selected := seedLoop ctx.getBlockByHeightC endHeight (degree + 1)
        (endHeight + 1 - startHeight) startHeight []
      if selected.length < degree + 1 then
        Except.error "DKG signature/pubic key is not enough to aggregate"
      else
        match ctx.blsSignAggregateC (selected.map (fun x => x.1)) (selected.map (fun x => x.2.1)) with
        | Except.error _ => Except.error "Failed to generate aggregate signature to update Seed"
        | Except.ok aggregateSig =>
          match ctx.blsVerifyAggregateC (selected.map (fun x => x.1)) (selected.map (fun x => x.2.2))
              ctx.epoch.seed aggregateSig with
          | Except.error _ => Except.error "Failed to verify aggregate signature to update Seed"
          | Except.ok _ => Except.ok aggregateSig

/-- Whether a block carries full DKG material (the selection condition of the
seed-collection loop). -/
def dkgQualified (blk : Block) : Bool :=
  blk.dkgID.length > 0 ∧ blk.dkgPubkey.length > 0 ∧ blk.dkgBlockSig.length > 0

/-- Declarative description of the seed-collection scan: the DKG triples of
the qualifying blocks at heights `startHeight` to `endHeight`, in height
order. -/
def seedCandidates (getBlk : Nat → Except String Block) (startHeight endHeight : Nat) :
    List (Bytes × Bytes × Bytes) :=
  (List.range' startHeight (endHeight + 1 - startHeight)).filterMap fun i =>
    match getBlk i with
    | Except.error _ => none
    | Except.ok blk =>
      if dkgQualified blk then some (blk.dkgID, blk.dkgBlockSig, blk.dkgPubkey) else none

/-- Declarative restatement of seed derivation following the words of the
spec, to be compared with `updateSeed`: empty seed for epoch numbers at most
one; otherwise the first `degree + 1` DKG-bearing blocks in the window from
`numDelegates * numSubEpochs * (epochNum - 2) + 1` to `epochHeight - 1` are
aggregated and cross-checked against the previous seed. -/
def updateSeedFromSpec (ctx : RollDPoSCtx) (degree epochNum epochHeight : Nat) :
    Except String Bytes :=
  if epochNum ≤ 1 then Except.ok []
  else
    let sel := (seedCandidates ctx.getBlockByHeightC
      (ctx.cfg.numDelegates * ctx.cfg.numSubEpochs * (epochNum - 2) + 1)
      (epochHeight - 1)).take (degree + 1)
    if sel.length < degree + 1 then
      Except.error "DKG signature/pubic key is not enough to aggregate"
    else
      match ctx.blsSignAggregateC (sel.map fun x => x.1) (sel.map fun x => x.2.1) with
      | Except.error _ => Except.error "Failed to generate aggregate signature to update Seed"
      | Except.ok aggregateSig =>
        match ctx.blsVerifyAggregateC (sel.map fun x => x.1) (sel.map fun x => x.2.2)
            ctx.epoch.seed aggregateSig with
        | Except.error _ => Except.error "Failed to verify aggregate signature to update Seed"
        | Except.ok _ => Except.ok aggregateSig

/-- Concrete Roll-DPoS configuration used by the concrete evaluations below. -/
def baseCfg : RollDPoS :=
  { delegateInterval := 10, proposerInterval := 10, unmatchedEventTTL := 3
    unmatchedEventInterval := 1, roundStartTTL := 10, acceptProposeTTL := 1
    acceptProposalEndorseTTL := 1, acceptCommitEndorseTTL := 1, delay := 5
    numSubEpochs := 1, eventChanSize := 10, numDelegates := 4
    enableDummyBlock := true, timeBasedRotation := false }

/-- Concrete block used by the concrete evaluations below. -/
def baseBlock : Block :=
  { height := 8, producerAddress := "proposerA", dkgID := [], dkgPubkey := []
    dkgBlockSig := [], timestamp := 0, isDummy := false }

/-- Concrete consensus context used by the concrete evaluations below: the
local node "me" is at round height 8 with proposer "proposerA", and all
collaborator oracles succeed. -/
def baseCtx : RollDPoSCtx :=
  { cfg := baseCfg
    addr := { rawAddress := "me", publicKey := [7], privateKey := [1] }
    clockNow := 100
    epoch := { num := 1, height := 1, delegates := ["proposerA", "me", "b", "c"]
               numSubEpochs := 1, dkg := [], seed := [] }
    round := { height := 8, timestamp := 50, block := none, proposalEndorses := []
               commitEndorses := [], proposer := "proposerA" }
    chainID := 1
    validateBlockC := fun _ _ => Except.ok ()
    commitBlockC := fun _ => Except.ok ()
    mintBlockC := Except.ok baseBlock
    mintNewDummyBlockC := { baseBlock with isDummy := true }
    getBlockByHeightC := fun _ => Except.error "no block"
    convertToBlockPbC := fun b => some b
    verifySignatureC := fun _ => true
    hashBlockC := fun b => [b.height]
    calcEpochNumAndHeightC := Except.ok (1, 1)
    rollingDelegatesC := fun _ => Except.ok ["proposerA", "me", "b", "c"]
    generateDKGC := Except.ok []
    rotatedProposerC := Except.ok ("proposerA", 8)
    calcProposerC := fun _ _ => Except.ok "proposerA"
    calcDurationSinceLastBlockC := Except.ok 0
    isEpochFinishedC := Except.ok false
    blake2bC := fun b => b
    ec283SignC := fun _ h => h
    blsVerifyC := fun _ _ _ => Except.ok ()
    blsSignAggregateC := fun _ _ => Except.ok [9]
    blsVerifyAggregateC := fun _ _ _ _ => Except.ok () }

/-- Concrete endorsement with a non-empty signature, exhibiting the
serialization round-trip defect. -/
def c3Endorse : Endorse :=
  { topic := true, height := 5, blkHash := List.replicate 32 7, decision := true
    endorser := "alice", endorserPubkey := [3, 4], signature := [9, 9, 9] }

/-- Concrete ROLLDPOS configuration with time-based rotation enabled and dummy
blocks disabled. -/
def c4CfgRotationNoDummy : Config :=
  { nodeType := "delegate"
    consensus := { scheme := "ROLLDPOS", blockCreationInterval := 10
                   rollDPoS := { baseCfg with enableDummyBlock := false, timeBasedRotation := true } } }

/-- Concrete ROLLDPOS configuration with both time-based rotation and dummy
blocks enabled. -/
def c4CfgRotationWithDummy : Config :=
  { nodeType := "delegate"
    consensus := { scheme := "ROLLDPOS", blockCreationInterval := 10
                   rollDPoS := { baseCfg with enableDummyBlock := true, timeBasedRotation := true } } }

/-- Concrete context whose oracles report epoch number 2 starting at height 3,
with DKG-bearing blocks at heights 1 and 2. -/
def c5Ctx : RollDPoSCtx :=
  { baseCtx with
    cfg := { baseCfg with numDelegates := 2, numSubEpochs := 1 }
    calcEpochNumAndHeightC := Except.ok (2, 3)
    getBlockByHeightC := fun i =>
      if i = 1 ∨ i = 2 then
        Except.ok { baseBlock with height := i, dkgID := [i], dkgPubkey := [i], dkgBlockSig := [i] }
      else Except.error "no block" }

/-- Concrete context with a committee of one and one recorded negative commit
endorsement, so that one more negative vote reaches the no-quorum. -/
def c6Ctx : RollDPoSCtx :=
  { baseCtx with
    epoch := { baseCtx.epoch with delegates := ["a"] }
    round := { baseCtx.round with commitEndorses := [([1], [("x", false)])] } }

/-- Concrete negative commit endorsement at the current round height. -/
def c6En : Endorse :=
  { topic := true, height := 8, blkHash := [1], decision := false
    endorser := "y", endorserPubkey := [], signature := [] }

/-- Concrete proposal endorsement (its event has no edge in `sRoundStart`). -/
def c7En : Endorse :=
  { topic := false, height := 8, blkHash := [1], decision := true
    endorser := "alice", endorserPubkey := [], signature := [] }

/-- Concrete FSM resting in `sRoundStart` with round timestamp 0, so that the
staleness check never fires. -/
def c7FSM : CFSM :=
  { state := sRoundStart, ctx := { baseCtx with round.timestamp := 0 } }

/-- Concrete commit endorsement whose height 99 differs from the round height 8. -/
def c9En : Endorse :=
  { topic := true, height := 99, blkHash := [1], decision := true
    endorser := "alice", endorserPubkey := [], signature := [] }

/-- Concrete context holding a previously accepted block in its round. -/
def c10Ctx : RollDPoSCtx :=
  { baseCtx with round.block := some baseBlock }

/-- Concrete proposal whose height 9 differs from the round height 8, so that
validation fails. -/
def c10Blk : Block :=
  { baseBlock with height := 9 }

/-- C4: the claim says `ValidateRollDPoS` rejects every ROLLDPOS configuration
with time-based rotation but without dummy blocks and accepts both flags
together; the code does the opposite: it accepts the former (first conjunct)
and rejects the latter with the very message that documents the claimed
intent (second conjunct).  This evaluates `ValidateRollDPoS` at both failing
inputs. -/
theorem c4_validate_rolldpos_inverted :
    ValidateRollDPoS c4CfgRotationNoDummy = Except.ok () ∧
    ValidateRollDPoS c4CfgRotationWithDummy =
      Except.error "roll-DPoS should enable dummy block when doing time based rotation" :=
  ⟨rfl, rfl⟩

/-- C3: the endorsement serialization round-trip is not the identity: the Go
`copy` into the nil signature slice of the fresh receiver drops the signature,
so deserializing the wire form of `c3Endorse` yields the same record with an
empty signature — every field but the non-empty signature survives. -/
theorem c3_roundtrip_loses_signature :
    Endorse.fromProtoMsg zeroEndorse (Endorse.toProtoMsg c3Endorse) (fun b => Except.ok b) =
      Except.ok { c3Endorse with signature := [] } ∧
    c3Endorse.signature ≠ [] :=
  ⟨rfl, by decide⟩

/-- C8: the canonical byte stream of an endorsement with a 32-byte block hash
is the concatenation of the height in 8-byte little-endian form, one topic
byte (proposal 0, commit 1), the 32 hash bytes and one decision byte, 42 bytes
in total, and the signature hash is the BLAKE2b-256 digest of that stream. -/
theorem c8_byte_stream_layout (en : Endorse) (blake2b : Bytes → Bytes)
    (h : en.blkHash.length = 32) :
    en.ByteStream =
      putUint64LE en.height ++ [if en.topic = endorseCommit then 1 else 0] ++ en.blkHash ++
        [if en.decision then 1 else 0] ∧
    en.ByteStream.length = 42 ∧
    en.Hash blake2b =
      blake2b (putUint64LE en.height ++ [if en.topic = endorseCommit then 1 else 0] ++ en.blkHash ++
        [if en.decision then 1 else 0]) := by
  have hb : en.ByteStream =
      putUint64LE en.height ++ [if en.topic = endorseCommit then 1 else 0] ++ en.blkHash ++
        [if en.decision then 1 else 0] := by
    unfold Endorse.ByteStream endorseCommit
    cases en.topic <;> cases en.decision <;> simp
  refine ⟨hb, ?_, ?_⟩
  · rw [hb]
    simp [putUint64LE, h]
  · rw [Endorse.Hash, hb]

/-- C8 witness: the layout theorem applied to a concrete endorsement with a
32-byte hash. -/
theorem c8_byte_stream_layout_witness :
    zeroEndorse.ByteStream.length = 42 :=
  (c8_byte_stream_layout zeroEndorse (fun b => b) (by decide)).2.1

/-- C2: a dequeued timeout event (propose-block, endorse-proposal or
endorse-commit timeout) whose timestamp is strictly before the current round
timestamp is dropped by the worker before dispatch: the FSM, its round and its
epoch context are unchanged and the only effect is the staleness debug log. -/
theorem c2_stale_timeout_dropped (m : CFSM) (t : EventType) (tsv : Nat)
    (ht : t = EventType.eProposeBlockTimeout ∨ t = EventType.eEndorseProposalTimeout ∨
      t = EventType.eEndorseCommitTimeout)
    (hstale : tsv < m.ctx.round.timestamp) :
    workerStep m (CEvt.timeout t tsv) = (m, [Act.logDebug "timeoutEvt is stale"]) := by
  unfold workerStep
  rw [if_pos]
  exact ⟨rfl, hstale⟩

/-- C2 witness: the staleness theorem applied to a concrete FSM and a concrete
propose-block timeout from before the round start. -/
theorem c2_stale_timeout_dropped_witness :
    workerStep { state := sAcceptPropose, ctx := baseCtx }
      (CEvt.timeout EventType.eProposeBlockTimeout 0) =
      ({ state := sAcceptPropose, ctx := baseCtx }, [Act.logDebug "timeoutEvt is stale"]) :=
  c2_stale_timeout_dropped { state := sAcceptPropose, ctx := baseCtx }
    EventType.eProposeBlockTimeout 0 (Or.inl rfl) (by decide)

/-- C7 counterexample: a concrete unmatched event older than
`UnmatchedEventTTL` (a proposal endorsement dequeued in `sRoundStart`, age 92
against a TTL of 3) is dropped with an empty effect list — in particular with
no log line, contrary to the claim that such an event is dropped with a log
line. -/
theorem c7_silent_drop_counterexample :
    hasTransition c7FSM.state (CEvt.endorseE c7En 8).evtType = false ∧
    c7FSM.ctx.cfg.unmatchedEventTTL < c7FSM.ctx.clockNow - (CEvt.endorseE c7En 8).ts ∧
    workerStep c7FSM (CEvt.endorseE c7En 8) = (c7FSM, []) := by
  refine ⟨rfl, by decide, ?_⟩
  rfl

/-- C7 (amended): when a dequeued event that survives the timeout-staleness
check has no transition edge for the current state and event type, the FSM is
left unchanged; if the event age is at most `UnmatchedEventTTL` the event is
re-produced with delay `UnmatchedEventInterval` (with a debug log), and
otherwise it is dropped silently, with no effect at all. -/
theorem c7_unmatched_event_redelivery (m : CFSM) (evt : CEvt)
    (hedge : hasTransition m.state evt.evtType = false)
    (hns : ¬ (evt.isTimeout ∧ evt.ts < m.ctx.round.timestamp)) :
    (workerStep m evt).1 = m ∧
    (m.ctx.clockNow - evt.ts ≤ m.ctx.cfg.unmatchedEventTTL →
      (workerStep m evt).2 =
        [Act.produce evt m.ctx.cfg.unmatchedEventInterval,
         Act.logDebug "consensusEvt state transition could find the match"]) ∧
    (m.ctx.cfg.unmatchedEventTTL < m.ctx.clockNow - evt.ts → (workerStep m evt).2 = []) := by
  have hstep : workerStep m evt =
      if m.ctx.clockNow - evt.ts ≤ m.ctx.cfg.unmatchedEventTTL then
        (m, [Act.produce evt m.ctx.cfg.unmatchedEventInterval,
             Act.logDebug "consensusEvt state transition could find the match"])
      else (m, []) := by
    unfold workerStep fsmHandle
    rw [if_neg hns, if_pos]
    · split <;> rfl
    · simp [hedge]
  by_cases hage : m.ctx.clockNow - evt.ts ≤ m.ctx.cfg.unmatchedEventTTL
  · rw [hstep, if_pos hage]
    exact ⟨rfl, fun _ => rfl, fun hlt => absurd hage (not_le.mpr hlt)⟩
  · rw [hstep, if_neg hage]
    exact ⟨rfl, fun hle => absurd hle hage, fun _ => rfl⟩

/-- C7 witness: the amended theorem applied to a concrete young unmatched
event (age 1 against a TTL of 3), which is re-produced after
`UnmatchedEventInterval`. -/
theorem c7_unmatched_event_redelivery_witness :
    (workerStep c7FSM (CEvt.endorseE c7En 99)).2 =
      [Act.produce (CEvt.endorseE c7En 99) 1,
       Act.logDebug "consensusEvt state transition could find the match"] :=
  (c7_unmatched_event_redelivery c7FSM (CEvt.endorseE c7En 99) rfl (by decide)).2.1 (by decide)

/-- Looking up a different key skips the head entry of an inner decision map. -/
theorem lookupDecision_cons_ne (q : String × Bool) (l : List (String × Bool)) (a : String)
    (hq : q.1 ≠ a) : lookupDecision (q :: l) a = lookupDecision l a := by
  simp [lookupDecision, List.find?_cons_of_neg, hq]

/-- Writing a decision into an inner map makes it the decision recorded for
that endorser. -/
theorem lookupDecision_updateInner (inner : List (String × Bool)) (a : String) (d : Bool) :
    lookupDecision (updateInner inner a d) a = some d := by
  induction inner with
  | nil => simp [updateInner, lookupDecision]
  | cons q rest ih =>
    by_cases hq : q.1 = a
    · have hmem : (q :: rest).any (fun p => decide (p.1 = a)) = true := by
        simp [List.any_cons, hq]
      rw [updateInner, if_pos hmem]
      simp only [List.map_cons, if_pos hq]
      simp [lookupDecision]
    · by_cases hr : rest.any (fun p => decide (p.1 = a)) = true
      · have hmem : (q :: rest).any (fun p => decide (p.1 = a)) = true := by
          simp [List.any_cons, hr]
        rw [updateInner, if_pos hmem]
        simp only [List.map_cons, if_neg hq]
        rw [lookupDecision_cons_ne q _ a hq]
        have := ih
        rwa [updateInner, if_pos hr] at this
      · have hr2 : rest.any (fun p => decide (p.1 = a)) = false := by
          revert hr
          cases rest.any (fun p => decide (p.1 = a)) <;> simp
        have hmem : (q :: rest).any (fun p => decide (p.1 = a)) = false := by
          rw [List.any_cons, hr2]
          simp [hq]
        rw [updateInner, if_neg (by simp [hmem])]
        rw [List.cons_append, lookupDecision_cons_ne q _ a hq]
        have := ih
        rwa [updateInner, if_neg (by simp [hr])] at this

/-- Looking up a different block hash skips the head entry of a tally. -/
theorem lookupTally_cons_ne (p : Bytes × List (String × Bool)) (l : Tally) (h : Bytes)
    (hp : p.1 ≠ h) : lookupTally (p :: l) h = lookupTally l h := by
  simp [lookupTally, List.find?_cons_of_neg, hp]

/-- Writing a decision into a tally updates exactly the inner map stored under
the endorsement block hash. -/
theorem lookupTally_updateTally (t : Tally) (h : Bytes) (a : String) (d : Bool) :
    lookupTally (updateTally t h a d) h = updateInner (lookupTally t h) a d := by
  induction t with
  | nil => simp [updateTally, lookupTally]
  | cons p rest ih =>
    by_cases hp : p.1 = h
    · have hmem : (p :: rest).any (fun x => decide (x.1 = h)) = true := by
        simp [List.any_cons, hp]
      rw [updateTally, if_pos hmem]
      simp only [List.map_cons, if_pos hp]
      simp [lookupTally, hp, List.find?_cons_of_pos]
    · by_cases hr : rest.any (fun x => decide (x.1 = h)) = true
      · have hmem : (p :: rest).any (fun x => decide (x.1 = h)) = true := by
          simp [List.any_cons, hr]
        rw [updateTally, if_pos hmem]
        simp only [List.map_cons, if_neg hp]
        rw [lookupTally_cons_ne p _ h hp, lookupTally_cons_ne p _ h hp]
        have := ih
        rwa [updateTally, if_pos hr] at this
      · have hr2 : rest.any (fun x => decide (x.1 = h)) = false := by
          revert hr
          cases rest.any (fun x => decide (x.1 = h)) <;> simp
        have hmem : (p :: rest).any (fun x => decide (x.1 = h)) = false := by
          rw [List.any_cons, hr2]
          simp [hp]
        rw [updateTally, if_neg (by simp [hmem])]
        rw [List.cons_append, lookupTally_cons_ne p _ h hp, lookupTally_cons_ne p _ h hp]
        have := ih
        rwa [updateTally, if_neg (by simp [hr])] at this

/-- C9: in `sAcceptCommitEndorse` the commit handler checks only the topic: a
commit endorsement whose height differs from the round height is still written
into the commit tally (first conjunct) and counted toward the quorum that
decides the transition (second conjunct), whereas a proposal endorsement with
a mismatched height is rejected by `validateEndorse` and leaves the proposal
handler state, context and effects unchanged (third conjunct). -/
theorem c9_commit_endorse_height_unchecked (ctx : RollDPoSCtx) (en : Endorse) (tsv : Nat)
    (htopic : en.topic = endorseCommit)
    (hheight : en.height ≠ ctx.round.height) :
    lookupDecision
        (lookupTally ((handleEndorseCommitEvt ctx (CEvt.endorseE en tsv)).ctx.round.commitEndorses)
          en.blkHash) en.endorser = some en.decision ∧
    ((handleEndorseCommitEvt ctx (CEvt.endorseE en tsv)).dst = sAcceptCommitEndorse ↔
      ((calcQuorum ctx.epoch.delegates.length
          (lookupTally (updateTally ctx.round.commitEndorses en.blkHash en.endorser en.decision)
            en.blkHash)).1 = false ∧
       (calcQuorum ctx.epoch.delegates.length
          (lookupTally (updateTally ctx.round.commitEndorses en.blkHash en.endorser en.decision)
            en.blkHash)).2 = false)) ∧
    (∀ (en2 : Endorse) (tsv2 : Nat), en2.topic = endorseProposal →
      en2.height ≠ ctx.round.height →
      validateEndorse ctx en2 endorseProposal = false ∧
      handleEndorseProposalEvt ctx (CEvt.endorseE en2 tsv2) =
        { dst := sAcceptProposalEndorse, ctx := ctx, acts := [], err := none }) := by
  have hty : (CEvt.endorseE en tsv).evtType = EventType.eEndorseCommit := by
    simp [CEvt.evtType, htopic, endorseCommit, endorseProposal]
  refine ⟨?_, ?_, ?_⟩
  · unfold handleEndorseCommitEvt
    rw [if_neg (fun hcon => hcon hty)]
    simp only []
    rw [htopic, if_neg (fun hcon => hcon rfl)]
    split
    · simp [lookupTally_updateTally, lookupDecision_updateInner]
    · simp [processEndorseCommit, lookupTally_updateTally, lookupDecision_updateInner]
  · unfold handleEndorseCommitEvt
    rw [if_neg (fun hcon => hcon hty)]
    simp only []
    rw [htopic, if_neg (fun hcon => hcon rfl)]
    split
    · rename_i hq
      simp only [Bool.and_eq_true, Bool.not_eq_true'] at hq
      simp [hq]
    · rename_i hq
      simp only [Bool.and_eq_true, Bool.not_eq_true'] at hq
      constructor
      · intro hdst
        exact absurd hdst (by simp [processEndorseCommit])
      · intro hff
        exact absurd ⟨hff.1, hff.2⟩ hq
  · intro en2 tsv2 h2 h3
    constructor
    · simp [validateEndorse, h2, h3]
    · have hty2 : (CEvt.endorseE en2 tsv2).evtType = EventType.eEndorseProposal := by
        simp [CEvt.evtType, h2, endorseProposal]
      unfold handleEndorseProposalEvt
      rw [if_neg (fun hcon => hcon hty2)]
      simp only []
      rw [if_pos]
      simp [validateEndorse, h2, h3]

/-- C9 witness: the asymmetry theorem applied to a concrete commit endorsement
at height 99 while the round is at height 8: its decision lands in the commit
tally. -/
theorem c9_commit_endorse_height_unchecked_witness :
    lookupDecision
        (lookupTally ((handleEndorseCommitEvt baseCtx (CEvt.endorseE c9En 0)).ctx.round.commitEndorses)
          c9En.blkHash) c9En.endorser = some c9En.decision :=
  (c9_commit_endorse_height_unchecked baseCtx c9En 0 rfl (by decide)).1

/-- C6: when no commit quorum is reached — the commit timeout fires, or the
commit tally reaches a quorum of negative decisions — the outcome processing
commits a freshly minted dummy block when `EnableDummyBlock` is set and
commits nothing otherwise, and in every case (for every context, hence also
when `CommitBlock` fails) it produces an `eFinishEpoch` event and moves the
FSM to `sRoundStart`; the timeout handler and the negative-quorum branch of
the commit handler both reduce to this no-consensus outcome processing. -/
theorem c6_no_quorum_outcome (ctx : RollDPoSCtx) (en : Endorse) (tsv tsv2 : Nat)
    (htopic : en.topic = endorseCommit)
    (hno : (calcQuorum ctx.epoch.delegates.length
        (lookupTally (updateTally ctx.round.commitEndorses en.blkHash en.endorser en.decision)
          en.blkHash)).2 = true) :
    (∀ c : RollDPoSCtx,
      (processEndorseCommit c false).dst = sRoundStart ∧
      Act.produce (CEvt.consensus EventType.eFinishEpoch c.clockNow) 0 ∈
        (processEndorseCommit c false).acts ∧
      (c.cfg.enableDummyBlock = true →
        Act.commitBlock c.mintNewDummyBlockC ∈ (processEndorseCommit c false).acts) ∧
      (c.cfg.enableDummyBlock = false →
        ∀ blk : Block, Act.commitBlock blk ∉ (processEndorseCommit c false).acts)) ∧
    ((handleEndorseCommitTimeout ctx (CEvt.timeout EventType.eEndorseCommitTimeout tsv)).dst =
        sRoundStart ∧
      Act.produce (CEvt.consensus EventType.eFinishEpoch ctx.clockNow) 0 ∈
        (handleEndorseCommitTimeout ctx (CEvt.timeout EventType.eEndorseCommitTimeout tsv)).acts) ∧
    handleEndorseCommitEvt ctx (CEvt.endorseE en tsv2) =
      processEndorseCommit
        { ctx with
          round.commitEndorses :=
            updateTally ctx.round.commitEndorses en.blkHash en.endorser en.decision } false := by
  have hproc : ∀ c : RollDPoSCtx,
      (processEndorseCommit c false).dst = sRoundStart ∧
      Act.produce (CEvt.consensus EventType.eFinishEpoch c.clockNow) 0 ∈
        (processEndorseCommit c false).acts ∧
      (c.cfg.enableDummyBlock = true →
        Act.commitBlock c.mintNewDummyBlockC ∈ (processEndorseCommit c false).acts) ∧
      (c.cfg.enableDummyBlock = false →
        ∀ blk : Block, Act.commitBlock blk ∉ (processEndorseCommit c false).acts) := by
    intro c
    refine ⟨rfl, ?_, ?_, ?_⟩
    · unfold processEndorseCommit RollDPoSCtx.newCEvt
      simp only []
      split <;> simp
    · intro hdum
      unfold processEndorseCommit
      simp only [Bool.false_eq_true, if_false, hdum, if_true]
      simp
    · intro hdum blk
      unfold processEndorseCommit
      simp only [Bool.false_eq_true, if_false, hdum]
      simp
  refine ⟨hproc, ⟨?_, ?_⟩, ?_⟩
  · rfl
  · unfold handleEndorseCommitTimeout
    rw [if_neg (fun hcon => hcon rfl)]
    simp only []
    exact List.mem_cons_of_mem _ (hproc _).2.1
  · have hty : (CEvt.endorseE en tsv2).evtType = EventType.eEndorseCommit := by
      simp [CEvt.evtType, htopic, endorseCommit, endorseProposal]
    unfold handleEndorseCommitEvt
    rw [if_neg (fun hcon => hcon hty)]
    simp only []
    rw [htopic, if_neg (fun hcon => hcon rfl)]
    rw [if_neg]
    · congr 1
      rw [hno]
      simp
    · rw [hno]
      simp

/-- C6 witness: the no-quorum outcome theorem instantiated with a committee of
one and a second negative commit vote (reaching the no-quorum), then applied
to the concrete dummy-block-enabled context: the dummy block is committed and
the FSM heads back to `sRoundStart`. -/
theorem c6_no_quorum_outcome_witness :
    (processEndorseCommit baseCtx false).dst = sRoundStart ∧
    Act.commitBlock baseCtx.mintNewDummyBlockC ∈ (processEndorseCommit baseCtx false).acts :=
  ⟨((c6_no_quorum_outcome c6Ctx c6En 0 0 rfl (by decide)).1 baseCtx).1,
   ((c6_no_quorum_outcome c6Ctx c6En 0 0 rfl (by decide)).1 baseCtx).2.2.1 rfl⟩

/-- C10: the propose-block handler clears the stored round block before
validating, so whenever validation of the incoming proposal fails the FSM
stays in `sAcceptPropose` with `round.block = none`, erasing any previously
accepted block of the same round. -/
theorem c10_failed_proposal_erases_block (ctx : RollDPoSCtx) (blk : Block) (tsv : Nat) (p : String)
    (hcp : ctx.calcProposerC blk.height ctx.epoch.delegates = Except.ok p)
    (hval : validateProposeBlock { ctx with round.block := none } blk p = false) :
    handleProposeBlockEvt ctx (CEvt.proposeBlk blk tsv) =
      { dst := sAcceptPropose, ctx := { ctx with round.block := none }, acts := [], err := none } := by
  unfold handleProposeBlockEvt
  rw [if_neg (fun hcon => hcon rfl)]
  simp only []
  rw [hcp]
  simp only []
  rw [if_pos]
  simp [hval]

/-- C10 witness: the frame theorem applied to a context holding a previously
accepted block and a proposal at the wrong height: the stored block is erased
while the FSM stays in `sAcceptPropose`. -/
theorem c10_failed_proposal_erases_block_witness :
    handleProposeBlockEvt c10Ctx (CEvt.proposeBlk c10Blk 60) =
      { dst := sAcceptPropose, ctx := { c10Ctx with round.block := none }, acts := [], err := none } ∧
    c10Ctx.round.block = some baseBlock :=
  ⟨c10_failed_proposal_erases_block c10Ctx c10Blk 60 "proposerA" rfl (by decide), rfl⟩

/-- Characterization of `validateProposeBlock`: it accepts exactly when the
height matches the round, the producer is non-empty and expected, the block
signature verifies, and either the block is self-proposed or chain validation
and the conditional DKG check succeed. -/
theorem validateProposeBlock_eq_true_iff (ctx : RollDPoSCtx) (blk : Block) (p : String) :
    validateProposeBlock ctx blk p = true ↔
      (blk.height = ctx.round.height ∧ blk.producerAddress ≠ "" ∧ blk.producerAddress = p ∧
       ctx.verifySignatureC blk = true ∧
       (blk.producerAddress = ctx.addr.rawAddress ∨
         (isOkE (ctx.validateBlockC blk true) = true ∧
          (blk.dkgPubkey.length > 0 ∧ blk.dkgBlockSig.length > 0 →
            isOkE (ctx.blsVerifyC blk.dkgPubkey ctx.epoch.seed blk.dkgBlockSig) = true)))) := by
  unfold validateProposeBlock verifyDKGSignature
  split_ifs with h1 h2 h3 h4 h5 h6 <;> simp_all <;> tauto

/-- C1: in `sAcceptPropose` with a computable expected proposer and a signing
key, a proposed block is accepted — the handler moves to
`sAcceptProposalEndorse` and stores the block in the round — exactly when its
height equals the round height, its producer is non-empty and equals the
expected proposer, its signature verifies, and either the producer is the
local node (checks 4 and 5 bypassed) or chain validation with actions
succeeds and, when both DKG public key and DKG block signature are non-empty,
the BLS verification of the DKG signature against the epoch seed succeeds. -/
theorem c1_propose_block_acceptance (ctx : RollDPoSCtx) (blk : Block) (tsv : Nat) (p : String)
    (hcp : ctx.calcProposerC blk.height ctx.epoch.delegates = Except.ok p)
    (hpk : ctx.addr.privateKey ≠ zeroPrivateKey) :
    ((handleProposeBlockEvt ctx (CEvt.proposeBlk blk tsv)).dst = sAcceptProposalEndorse ∧
     (handleProposeBlockEvt ctx (CEvt.proposeBlk blk tsv)).ctx.round.block = some blk) ↔
      (blk.height = ctx.round.height ∧ blk.producerAddress ≠ "" ∧ blk.producerAddress = p ∧
       ctx.verifySignatureC blk = true ∧
       (blk.producerAddress = ctx.addr.rawAddress ∨
         (isOkE (ctx.validateBlockC blk true) = true ∧
          (blk.dkgPubkey.length > 0 ∧ blk.dkgBlockSig.length > 0 →
            isOkE (ctx.blsVerifyC blk.dkgPubkey ctx.epoch.seed blk.dkgBlockSig) = true)))) := by
  have hiff := validateProposeBlock_eq_true_iff { ctx with round.block := none } blk p
  by_cases hval : validateProposeBlock { ctx with round.block := none } blk p = true
  · refine iff_of_true ⟨?_, ?_⟩ (hiff.mp hval)
    all_goals
      unfold handleProposeBlockEvt
      rw [if_neg (fun hcon => hcon rfl)]
      simp only []
      rw [hcp]
      simp only []
      rw [if_neg (fun hcon => hcon hval)]
      unfold RollDPoSCtx.newSignedEndorse Endorse.Sign
      rw [if_neg (fun hcon => hpk hcon)]
      simp only []
      rfl
  · have hvalf : validateProposeBlock { ctx with round.block := none } blk p = false := by
      revert hval
      cases validateProposeBlock { ctx with round.block := none } blk p <;> simp
    refine iff_of_false ?_ (fun hc => hval (hiff.mpr hc))
    intro hAB
    have hres : handleProposeBlockEvt ctx (CEvt.proposeBlk blk tsv) =
        { dst := sAcceptPropose, ctx := { ctx with round.block := none }, acts := [], err := none } := by
      unfold handleProposeBlockEvt
      rw [if_neg (fun hcon => hcon rfl)]
      simp only []
      rw [hcp]
      simp only []
      rw [if_pos]
      simp [hvalf]
    rw [hres] at hAB
    simp at hAB

/-- C1 witness: the acceptance theorem applied to a concrete valid remote
proposal: the FSM moves to `sAcceptProposalEndorse`. -/
theorem c1_propose_block_acceptance_witness :
    (handleProposeBlockEvt baseCtx (CEvt.proposeBlk baseBlock 60)).dst = sAcceptProposalEndorse :=
  ((c1_propose_block_acceptance baseCtx baseBlock 60 "proposerA" rfl (by decide)).mpr
    ⟨rfl, by decide, rfl, rfl, Or.inr ⟨rfl, fun _ => rfl⟩⟩).1

/-- The imperative seed-collection loop computes the first `need` qualifying
DKG triples of the scanned window: with enough iteration budget it equals the
declarative scan truncated at `need` entries beyond the accumulator. -/
theorem seedLoop_eq_take (getBlk : Nat → Except String Block) (endH need : Nat) :
    ∀ (fuel i : Nat) (acc : List (Bytes × Bytes × Bytes)), endH + 1 ≤ i + fuel →
      seedLoop getBlk endH need fuel i acc =
        acc ++ (seedCandidates getBlk i endH).take (need - acc.length) := by
  intro fuel
  induction fuel with
  | zero =>
    intro i acc hle
    have h0 : endH + 1 - i = 0 := by omega
    simp [seedLoop, seedCandidates, h0]
  | succ fuel ih =>
    intro i acc hle
    by_cases hi : i ≤ endH
    · by_cases hacc : acc.length < need
      · rw [seedLoop, if_pos ⟨hi, hacc⟩]
        have hrange : endH + 1 - i = (endH - i) + 1 := by omega
        have htail : endH + 1 - (i + 1) = endH - i := by omega
        cases hgb : getBlk i with
        | error e =>
          have hcand : seedCandidates getBlk i endH = seedCandidates getBlk (i + 1) endH := by
            unfold seedCandidates
            rw [hrange, List.range'_succ, List.filterMap_cons, hgb, htail]
          simp only []
          rw [ih (i + 1) acc (by omega), hcand]
        | ok blk =>
          by_cases hq : blk.dkgID.length > 0 ∧ blk.dkgPubkey.length > 0 ∧ blk.dkgBlockSig.length > 0
          · have hqb : dkgQualified blk = true := by simp [dkgQualified, hq.1, hq.2.1, hq.2.2]
            have hcand : seedCandidates getBlk i endH =
                (blk.dkgID, blk.dkgBlockSig, blk.dkgPubkey) :: seedCandidates getBlk (i + 1) endH := by
              unfold seedCandidates
              rw [hrange, List.range'_succ, List.filterMap_cons, hgb, htail]
              simp [hqb]
            simp only []
            rw [if_pos hq]
            rw [ih (i + 1) (acc ++ [(blk.dkgID, blk.dkgBlockSig, blk.dkgPubkey)]) (by omega), hcand]
            have hneed : need - acc.length = (need - (acc.length + 1)) + 1 := by omega
            rw [hneed, List.take_succ_cons]
            simp
          · have hqb : dkgQualified blk = false := by
              simp only [dkgQualified]
              simp only [decide_eq_false_iff_not]
              exact fun hc => hq ⟨hc.1, hc.2.1, hc.2.2⟩
            have hcand : seedCandidates getBlk i endH = seedCandidates getBlk (i + 1) endH := by
              unfold seedCandidates
              rw [hrange, List.range'_succ, List.filterMap_cons, hgb, htail]
              simp [hqb]
            simp only []
            rw [if_neg hq]
            rw [ih (i + 1) acc (by omega), hcand]
      · rw [seedLoop, if_neg (fun hcon => hacc hcon.2)]
        have h0 : need - acc.length = 0 := by omega
        simp [h0]
    · rw [seedLoop, if_neg (fun hcon => hi hcon.1)]
      have h0 : endH + 1 - i = 0 := by omega
      simp [seedCandidates, h0]

/-- C5: seed derivation agrees with the declarative spec description: the
empty byte sequence for epoch numbers at most one; for later epochs a scan of
heights `numDelegates * numSubEpochs * (epochNum - 2) + 1` up to
`epochHeight - 1` collecting the first `degree + 1` blocks with non-empty
DKGID, DKGPubkey and DKGBlockSig, whose IDs and signatures are BLS-aggregated;
an error when fewer than `degree + 1` qualifying blocks exist or when
aggregation or verification against the previous seed fails. -/
theorem c5_update_seed_eq_spec (ctx : RollDPoSCtx) (degree epochNum epochHeight : Nat)
    (h : ctx.calcEpochNumAndHeightC = Except.ok (epochNum, epochHeight)) :
    updateSeed ctx degree = updateSeedFromSpec ctx degree epochNum epochHeight := by
  unfold updateSeed updateSeedFromSpec
  rw [h]
  simp only []
  by_cases he : epochNum ≤ 1
  · rw [if_pos he, if_pos he]
  · rw [if_neg he, if_neg he]
    rw [seedLoop_eq_take ctx.getBlockByHeightC (epochHeight - 1) (degree + 1)
      (epochHeight - 1 + 1 - (ctx.cfg.numDelegates * ctx.cfg.numSubEpochs * (epochNum - 2) + 1))
      (ctx.cfg.numDelegates * ctx.cfg.numSubEpochs * (epochNum - 2) + 1) [] (by omega)]
    simp

/-- C5 witness: the seed theorem applied to a concrete context reporting epoch
2 at height 3 with DKG-bearing blocks at heights 1 and 2; the derived seed is
the concrete aggregate. -/
theorem c5_update_seed_eq_spec_witness :
    updateSeed c5Ctx 1 = updateSeedFromSpec c5Ctx 1 2 3 ∧ updateSeed c5Ctx 1 = Except.ok [9] :=
  ⟨c5_update_seed_eq_spec c5Ctx 1 2 3 rfl, rfl⟩
